import Mathlib

/-!
Shallow embedding of the gis-city browser map client
(`src/unnamed/part_000`, the full editor variant, and
`src/static/js/map.js`, the simplified read-only variant).

JavaScript values are embedded as follows: optional / possibly-undefined
fields become `Option`; JS truthiness on strings (`''` is falsy) and on
numbers (`0` is falsy) is made explicit; the open-ended JSON mapping in
`properties.properties` is represented as string key/value pairs, since the
client only observes its key count and an opaque pretty-printed dump; the
DOM, network and dialog side effects become an explicit event trace, and the
mutable page state (layer groups, color cursor, modal, pending drawing)
becomes an explicit `MapState` record threaded through the handlers.
-/

/-- Properties object of a POI GeoJSON Feature, as consumed by the client
(`properties.name`, `poi_type`, `address`, `id`, `geom_type`, and the open
extra-metadata mapping `properties.properties`). -/
structure Props where
  name : Option String
  poi_type : Option String
  address : Option String
  id : Option Nat
  geom_type : Option String
  properties : Option (List (String × String))
deriving DecidableEq

/-- A GeoJSON Feature as exchanged with the backend.  The geometry itself is
never inspected by the client beyond being handed to the map library, so it
is kept as an opaque string. -/
structure Feature where
  properties : Option Props
  geometry : String
deriving DecidableEq

/-- A fetched FeatureCollection; `features` is `none` when the response
object lacks a `features` array (`!geojson.features`). -/
structure FeatureCollection where
  features : Option (List Feature)

/-- JS `a || dflt` for an optional string field: `undefined` and the empty
string are falsy. -/
def jsOrStr (v : Option String) (dflt : String) : String :=
  match v with
  | some s => if s = "" then dflt else s
  | none => dflt

/-- JS truthiness of an optional string field. -/
def strTruthy (v : Option String) : Bool :=
  match v with
  | some s => s ≠ ""
  | none => false

/-- JS template interpolation of a possibly-undefined number: `undefined`
prints as the literal text "undefined". -/
def displayNum (v : Option Nat) : String :=
  match v with
  | some n => toString n
  | none => "undefined"

/-- JS template interpolation of a possibly-undefined string. -/
def displayStr (v : Option String) : String :=
  match v with
  | some s => s
  | none => "undefined"

/-- The guard `props.properties && Object.keys(props.properties).length > 0`:
the mapping must be present (non-null) and have at least one key. -/
def extrasNonEmpty (v : Option (List (String × String))) : Bool :=
  match v with
  | some kvs => kvs.length != 0
  | none => false

/-- Model of the builtin `JSON.stringify(x, null, 2)` on the extra-properties
mapping.  The client never inspects this text, only embeds it in a `<pre>`
block, so its exact shape is irrelevant to every claim. -/
def jsonStringifyPretty (kvs : List (String × String)) : String :=
  match kvs with
  | [] => "\x7b\x7d"
  | _ =>
    "\x7b\n"
      ++ String.intercalate ",\n"
          (kvs.map (fun kv => "  \"" ++ kv.1 ++ "\": \"" ++ kv.2 ++ "\""))
      ++ "\n\x7d"

/-- `createPopupContent`, body on a present properties object: the sequence
of `html += ...` appends from the source, in order. -/
def createPopupContentProps (props : Props) : String :=
  let html := "<div class=\"popup-content\">"
  let html := html ++ ("<h3>" ++ jsOrStr props.name "Unnamed POI" ++ "</h3>")
  let html := if strTruthy props.poi_type then
      html ++ ("<p><strong>Type:</strong> " ++ displayStr props.poi_type ++ "</p>")
    else html
  let html := if strTruthy props.address then
      html ++ ("<p><strong>Address:</strong> " ++ displayStr props.address ++ "</p>")
    else html
  let html := html ++ ("<p><strong>ID:</strong> " ++ displayNum props.id ++ "</p>")
  let html := html ++ ("<p><strong>Geometry:</strong> " ++ displayStr props.geom_type ++ "</p>")
  let html := if extrasNonEmpty props.properties then
      html ++ ("<div class=\"properties\">" ++ "<strong>Additional Properties:</strong><br>"
        ++ "<pre>" ++ jsonStringifyPretty (props.properties.getD []) ++ "</pre>" ++ "</div>")
    else html
  html ++ "</div>"

/-- `createPopupContent(feature)` (identical in both source files).  Reading
`feature.properties.name` on an absent properties object throws a TypeError,
modelled as `none`. -/
def createPopupContent (feature : Feature) : Option String :=
  match feature.properties with
  | none => none
  | some props => some (createPopupContentProps props)

/-- The popup markup viewed as its sequence of appended chunks (one entry
per `html += ...` site; a skipped conditional line contributes `""`). -/
def popupSegments (props : Props) : List String :=
  ["<div class=\"popup-content\">",
   "<h3>" ++ jsOrStr props.name "Unnamed POI" ++ "</h3>",
   if strTruthy props.poi_type then
     "<p><strong>Type:</strong> " ++ displayStr props.poi_type ++ "</p>" else "",
   if strTruthy props.address then
     "<p><strong>Address:</strong> " ++ displayStr props.address ++ "</p>" else "",
   "<p><strong>ID:</strong> " ++ displayNum props.id ++ "</p>",
   "<p><strong>Geometry:</strong> " ++ displayStr props.geom_type ++ "</p>",
   if extrasNonEmpty props.properties then
     "<div class=\"properties\">" ++ "<strong>Additional Properties:</strong><br>"
       ++ "<pre>" ++ jsonStringifyPretty (props.properties.getD []) ++ "</pre>" ++ "</div>"
   else "",
   "</div>"]

/-- Concatenation of markup chunks. -/
def concatSegs : List String → String
  | [] => ""
  | s :: rest => s ++ concatSegs rest

theorem createPopupContentProps_eq_concatSegs (props : Props) :
    createPopupContentProps props = concatSegs (popupSegments props) := by
  unfold createPopupContentProps popupSegments concatSegs
  by_cases h1 : strTruthy props.poi_type <;>
    by_cases h2 : strTruthy props.address <;>
      by_cases h3 : extrasNonEmpty props.properties <;>
        simp [h1, h2, h3, concatSegs, String.append_assoc]

/-- A prefix test on character lists that is stable under appending more
text: used to recognize which markup line a chunk is. -/
def strStartsWith (s pre : String) : Bool := List.isPrefixOf pre.data s.data

/-- Whether some chunk of the markup opens with the given marker text. -/
def hasLineWith (segs : List String) (marker : String) : Bool :=
  segs.any (fun seg => strStartsWith seg marker)

theorem isPrefixOf_append_of_isPrefixOf (p a b : List Char)
    (h : p.isPrefixOf a = true) : p.isPrefixOf (a ++ b) = true := by
  induction p generalizing a with
  | nil => simp [List.isPrefixOf]
  | cons c p ih =>
    cases a with
    | nil => simp [List.isPrefixOf] at h
    | cons d a' =>
      simp only [List.cons_append, List.isPrefixOf, Bool.and_eq_true] at h ⊢
      exact ⟨h.1, ih a' h.2⟩

theorem isPrefixOf_append_eq_false (p a b : List Char)
    (h₁ : p.isPrefixOf a = false) (h₂ : a.isPrefixOf p = false) :
    p.isPrefixOf (a ++ b) = false := by
  induction p generalizing a with
  | nil => simp [List.isPrefixOf] at h₁
  | cons c p ih =>
    cases a with
    | nil => simp [List.isPrefixOf] at h₂
    | cons d a' =>
      simp only [List.cons_append, List.isPrefixOf] at h₁ h₂ ⊢
      cases hcd : (c == d) with
      | false => simp [hcd]
      | true =>
        have hc : c = d := by simpa using hcd
        subst hc
        simp only [beq_self_eq_true, Bool.true_and] at h₁ h₂ ⊢
        exact ih a' h₁ h₂

theorem strStartsWith_append_true (lit v marker : String)
    (h : List.isPrefixOf marker.data lit.data = true) :
    strStartsWith (lit ++ v) marker = true := by
  unfold strStartsWith
  rw [String.data_append]
  exact isPrefixOf_append_of_isPrefixOf _ _ _ h

theorem strStartsWith_append_false (lit v marker : String)
    (h₁ : List.isPrefixOf marker.data lit.data = false)
    (h₂ : List.isPrefixOf lit.data marker.data = false) :
    strStartsWith (lit ++ v) marker = false := by
  unfold strStartsWith
  rw [String.data_append]
  exact isPrefixOf_append_eq_false _ _ _ h₁ h₂

theorem hasLineWith_type_eq (p : Props) :
    hasLineWith (popupSegments p) "<p><strong>Type:" = strTruthy p.poi_type := by
  have e1 : ∀ y : String, strStartsWith ("<h3>" ++ y) "<p><strong>Type:" = false :=
    fun y => strStartsWith_append_false _ _ _ (by decide) (by decide)
  have e2 : ∀ y : String,
      strStartsWith ("<p><strong>Type:</strong> " ++ y) "<p><strong>Type:" = true :=
    fun y => strStartsWith_append_true _ _ _ (by decide)
  have e3 : ∀ y : String,
      strStartsWith ("<p><strong>Address:</strong> " ++ y) "<p><strong>Type:" = false :=
    fun y => strStartsWith_append_false _ _ _ (by decide) (by decide)
  have e4 : ∀ y : String,
      strStartsWith ("<p><strong>ID:</strong> " ++ y) "<p><strong>Type:" = false :=
    fun y => strStartsWith_append_false _ _ _ (by decide) (by decide)
  have e5 : ∀ y : String,
      strStartsWith ("<p><strong>Geometry:</strong> " ++ y) "<p><strong>Type:" = false :=
    fun y => strStartsWith_append_false _ _ _ (by decide) (by decide)
  have e6 : ∀ y : String,
      strStartsWith
        ("<div class=\"properties\"><strong>Additional Properties:</strong><br><pre>" ++ y)
        "<p><strong>Type:" = false :=
    fun y => strStartsWith_append_false _ _ _ (by decide) (by decide)
  have e7 : strStartsWith "<div class=\"popup-content\">" "<p><strong>Type:" = false := by decide
  have e8 : strStartsWith "</div>" "<p><strong>Type:" = false := by decide
  have e9 : strStartsWith "" "<p><strong>Type:" = false := by decide
  unfold hasLineWith popupSegments
  cases h1 : strTruthy p.poi_type <;> cases h2 : strTruthy p.address <;>
    cases h3 : extrasNonEmpty p.properties <;>
      simp [h1, h2, h3, String.append_assoc, e1, e2, e3, e4, e5, e6, e7, e8, e9]

theorem hasLineWith_address_eq (p : Props) :
    hasLineWith (popupSegments p) "<p><strong>Address:" = strTruthy p.address := by
  have e1 : ∀ y : String, strStartsWith ("<h3>" ++ y) "<p><strong>Address:" = false :=
    fun y => strStartsWith_append_false _ _ _ (by decide) (by decide)
  have e2 : ∀ y : String,
      strStartsWith ("<p><strong>Type:</strong> " ++ y) "<p><strong>Address:" = false :=
    fun y => strStartsWith_append_false _ _ _ (by decide) (by decide)
  have e3 : ∀ y : String,
      strStartsWith ("<p><strong>Address:</strong> " ++ y) "<p><strong>Address:" = true :=
    fun y => strStartsWith_append_true _ _ _ (by decide)
  have e4 : ∀ y : String,
      strStartsWith ("<p><strong>ID:</strong> " ++ y) "<p><strong>Address:" = false :=
    fun y => strStartsWith_append_false _ _ _ (by decide) (by decide)
  have e5 : ∀ y : String,
      strStartsWith ("<p><strong>Geometry:</strong> " ++ y) "<p><strong>Address:" = false :=
    fun y => strStartsWith_append_false _ _ _ (by decide) (by decide)
  have e6 : ∀ y : String,
      strStartsWith
        ("<div class=\"properties\"><strong>Additional Properties:</strong><br><pre>" ++ y)
        "<p><strong>Address:" = false :=
    fun y => strStartsWith_append_false _ _ _ (by decide) (by decide)
  have e7 : strStartsWith "<div class=\"popup-content\">" "<p><strong>Address:" = false := by
    decide
  have e8 : strStartsWith "</div>" "<p><strong>Address:" = false := by decide
  have e9 : strStartsWith "" "<p><strong>Address:" = false := by decide
  unfold hasLineWith popupSegments
  cases h1 : strTruthy p.poi_type <;> cases h2 : strTruthy p.address <;>
    cases h3 : extrasNonEmpty p.properties <;>
      simp [h1, h2, h3, String.append_assoc, e1, e2, e3, e4, e5, e6, e7, e8, e9]

theorem hasLineWith_extras_eq (p : Props) :
    hasLineWith (popupSegments p) "<div class=\"properties\">"
      = extrasNonEmpty p.properties := by
  have e1 : ∀ y : String, strStartsWith ("<h3>" ++ y) "<div class=\"properties\">" = false :=
    fun y => strStartsWith_append_false _ _ _ (by decide) (by decide)
  have e2 : ∀ y : String,
      strStartsWith ("<p><strong>Type:</strong> " ++ y) "<div class=\"properties\">" = false :=
    fun y => strStartsWith_append_false _ _ _ (by decide) (by decide)
  have e3 : ∀ y : String,
      strStartsWith ("<p><strong>Address:</strong> " ++ y)
        "<div class=\"properties\">" = false :=
    fun y => strStartsWith_append_false _ _ _ (by decide) (by decide)
  have e4 : ∀ y : String,
      strStartsWith ("<p><strong>ID:</strong> " ++ y) "<div class=\"properties\">" = false :=
    fun y => strStartsWith_append_false _ _ _ (by decide) (by decide)
  have e5 : ∀ y : String,
      strStartsWith ("<p><strong>Geometry:</strong> " ++ y)
        "<div class=\"properties\">" = false :=
    fun y => strStartsWith_append_false _ _ _ (by decide) (by decide)
  have e6 : ∀ y : String,
      strStartsWith
        ("<div class=\"properties\"><strong>Additional Properties:</strong><br><pre>" ++ y)
        "<div class=\"properties\">" = true :=
    fun y => strStartsWith_append_true _ _ _ (by decide)
  have e7 : strStartsWith "<div class=\"popup-content\">" "<div class=\"properties\">" = false := by
    decide
  have e8 : strStartsWith "</div>" "<div class=\"properties\">" = false := by decide
  have e9 : strStartsWith "" "<div class=\"properties\">" = false := by decide
  unfold hasLineWith popupSegments
  cases h1 : strTruthy p.poi_type <;> cases h2 : strTruthy p.address <;>
    cases h3 : extrasNonEmpty p.properties <;>
      simp [h1, h2, h3, String.append_assoc, e1, e2, e3, e4, e5, e6, e7, e8, e9]

/-- C8: for every Feature with a properties object, the popup renderer
returns markup (no error) equal to the concatenation of its chunks; the
chunks contain the name header (defaulting to "Unnamed POI"), the ID line
and the Geometry line unconditionally; and a chunk opening with the Type
line, the Address line, or the extra-properties dump is present exactly when
the corresponding field is present (truthy) resp. the mapping is present and
non-empty. -/
theorem c8_popup_content_fields (f : Feature) (p : Props) (h : f.properties = some p) :
    createPopupContent f = some (concatSegs (popupSegments p)) ∧
    ("<h3>" ++ jsOrStr p.name "Unnamed POI" ++ "</h3>") ∈ popupSegments p ∧
    ("<p><strong>ID:</strong> " ++ displayNum p.id ++ "</p>") ∈ popupSegments p ∧
    ("<p><strong>Geometry:</strong> " ++ displayStr p.geom_type ++ "</p>") ∈ popupSegments p ∧
    hasLineWith (popupSegments p) "<p><strong>Type:" = strTruthy p.poi_type ∧
    hasLineWith (popupSegments p) "<p><strong>Address:" = strTruthy p.address ∧
    hasLineWith (popupSegments p) "<div class=\"properties\">"
      = extrasNonEmpty p.properties := by
  refine ⟨?_, ?_, ?_, ?_, hasLineWith_type_eq p, hasLineWith_address_eq p,
    hasLineWith_extras_eq p⟩
  · simp [createPopupContent, h, createPopupContentProps_eq_concatSegs]
  · simp [popupSegments]
  · simp [popupSegments]
  · simp [popupSegments]

/-- Sample inputs used by the witnesses. -/
def sampleProps : Props :=
  { name := some "Cafe Central", poi_type := some "restaurant", address := none,
    id := some 7, geom_type := some "ST_Point", properties := some [("wifi", "yes")] }

def sampleFeature : Feature := { properties := some sampleProps, geometry := "g" }

theorem c8_popup_content_fields_witness :
    createPopupContent sampleFeature
      = some (concatSegs (popupSegments sampleProps)) :=
  (c8_popup_content_fields sampleFeature sampleProps rfl).1

/-- C10: the popup renderer fails (throws) exactly when `feature.properties`
is absent; with a properties object it always returns markup, and a missing
`id` or `geom_type` simply renders the literal text "undefined" in the ID
resp. Geometry line. -/
theorem c10_popup_totality (f : Feature) :
    (createPopupContent f = none ↔ f.properties = none) ∧
    (∀ p, f.properties = some p →
      createPopupContent f = some (concatSegs (popupSegments p)) ∧
      (p.id = none → "<p><strong>ID:</strong> undefined</p>" ∈ popupSegments p) ∧
      (p.geom_type = none →
        "<p><strong>Geometry:</strong> undefined</p>" ∈ popupSegments p)) := by
  constructor
  · cases hp : f.properties <;> simp [createPopupContent, hp]
  · intro p hp
    refine ⟨?_, ?_, ?_⟩
    · simp [createPopupContent, hp, createPopupContentProps_eq_concatSegs]
    · intro hid
      have : ("<p><strong>ID:</strong> " ++ displayNum p.id ++ "</p>")
          = "<p><strong>ID:</strong> undefined</p>" := by
        rw [hid]; rfl
      rw [← this]
      simp [popupSegments]
    · intro hgt
      have : ("<p><strong>Geometry:</strong> " ++ displayStr p.geom_type ++ "</p>")
          = "<p><strong>Geometry:</strong> undefined</p>" := by
        rw [hgt]; rfl
      rw [← this]
      simp [popupSegments]

def bareProps : Props :=
  { name := none, poi_type := none, address := none,
    id := none, geom_type := none, properties := none }

def bareFeature : Feature := { properties := some bareProps, geometry := "g" }

theorem c10_popup_totality_witness :
    "<p><strong>ID:</strong> undefined</p>" ∈ popupSegments bareProps :=
  (((c10_popup_totality bareFeature).2) bareProps rfl).2.1 rfl

/-- Geometry classes the loader dispatches on. -/
inductive GeomClass
  | point
  | line
  | poly
deriving DecidableEq

/-- Classification of a feature by its `geom_type` tag in the full variant:
`'ST_Point'` is a point, `'ST_LineString'`/`'ST_MultiLineString'` are lines,
everything else (including an undefined tag) falls into the polygon branch. -/
def classify (geomType : Option String) : GeomClass :=
  match geomType with
  | some gt =>
    if gt = "ST_Point" then .point
    else if gt = "ST_LineString" ∨ gt = "ST_MultiLineString" then .line
    else .poly
  | none => .poly

/-- Classification in the simplified variant: point versus everything else. -/
def classifySimple (geomType : Option String) : GeomClass :=
  match geomType with
  | some gt => if gt = "ST_Point" then .point else .poly
  | none => .poly

/-- The `geom_type` tag of a feature, when its properties object exists. -/
def featGeomType (f : Feature) : Option String :=
  f.properties.bind Props.geom_type

def featClass (f : Feature) : GeomClass := classify (featGeomType f)

def featClassSimple (f : Feature) : GeomClass := classifySimple (featGeomType f)

/-- A rendered shape held in a layer group: the attached source feature (if
any), its serialized geometry, stroke/fill color and bound popup markup. -/
structure RenderedLayer where
  feature : Option Feature
  geom : String
  color : String
  popup : String
deriving DecidableEq

/-- The page's mutable state: the three display layer groups, the editable
overlay (`drawnItems`), the pending drawing, the polygon color cursor, the
`poi-count` status text, and whether the creation modal is shown. -/
structure MapState where
  pointLayer : List RenderedLayer
  lineLayer : List RenderedLayer
  polygonLayer : List RenderedLayer
  drawnItems : List RenderedLayer
  currentDrawing : Option RenderedLayer
  colorIndex : Nat
  poiCountText : String
  modalOpen : Bool
deriving DecidableEq

/-- Body of a `POST /api/pois` creation request. -/
structure PoiBody where
  name : String
  poi_type : String
  address : String
  geometry : String
  properties : Option String
deriving DecidableEq

/-- A backend request issued by the client. -/
inductive Request
  | getPois
  | postPois (body : PoiBody)
  | deletePoi (id : Nat)
deriving DecidableEq

/-- Observable side effects of a handler run, in order of occurrence. -/
inductive Event
  | request (r : Request)
  | alert (msg : String)
  | confirmDialog (msg : String)
  | consoleLog (msg : String)
  | consoleError (msg : String)
  | cleared
deriving DecidableEq

/-- The backend requests contained in an event trace, in order. -/
def requestsOf (evs : List Event) : List Request :=
  evs.filterMap (fun e => match e with | .request r => some r | _ => none)

/-- Color palette for polygons. -/
def polygonColors : List String :=
  ["#FF6B6B", "#4ECDC4", "#45B7D1", "#FFA07A", "#98D8C8",
   "#F7DC6F", "#BB8FCE", "#85C1E2", "#F8B739", "#52B788"]

/-- `getPolygonColor()`: reads the palette at the cursor modulo the palette
length and advances the cursor. -/
def getPolygonColor (colorIndex : Nat) : String × Nat :=
  (polygonColors.getD (colorIndex % polygonColors.length) "#000000", colorIndex + 1)

/-- `clearLayers()`: empties the three display groups and the editable
overlay and resets the polygon color cursor to zero. -/
def clearLayers (s : MapState) : MapState :=
  { s with pointLayer := [], lineLayer := [], polygonLayer := [],
           drawnItems := [], colorIndex := 0 }

/-- `closeModal()`: hides the modal, resets the form, and removes the
pending drawing (if any) from the editable overlay, discarding it. -/
def closeModal (s : MapState) : MapState :=
  match s.currentDrawing with
  | some d =>
    { s with modalOpen := false, drawnItems := s.drawnItems.erase d,
             currentDrawing := none }
  | none => { s with modalOpen := false }

def mkRendered (f : Feature) (color popupHtml : String) : RenderedLayer :=
  { feature := some f, geom := f.geometry, color := color, popup := popupHtml }

/-- Rendering one line feature in the full variant: fixed green style, popup
bound, added to the line layer and (feature attached) to the overlay. -/
def renderLine (f : Feature) (p : Props) (s : MapState) : MapState :=
  let l := mkRendered f "#00ff00" (createPopupContentProps p)
  { s with lineLayer := s.lineLayer ++ [l], drawnItems := s.drawnItems ++ [l] }

/-- Rendering one point feature: fixed blue circle-marker style. -/
def renderPoint (f : Feature) (p : Props) (s : MapState) : MapState :=
  let l := mkRendered f "#3388ff" (createPopupContentProps p)
  { s with pointLayer := s.pointLayer ++ [l], drawnItems := s.drawnItems ++ [l] }

/-- Rendering one polygon feature: takes the next cycling palette color. -/
def renderPolygon (f : Feature) (p : Props) (s : MapState) : MapState :=
  let c := getPolygonColor s.colorIndex
  let l := mkRendered f c.1 (createPopupContentProps p)
  { s with polygonLayer := s.polygonLayer ++ [l], drawnItems := s.drawnItems ++ [l],
           colorIndex := c.2 }

/-- First `forEach` of `loadPOIs`: collects point and polygon features (in
order) and renders line features immediately.  Reading `geom_type` of an
absent properties object throws, modelled as `.error` carrying the state at
the point of the throw. -/
def pass1 : List Feature → MapState → Except MapState (List Feature × List Feature × MapState)
  | [], s => .ok ([], [], s)
  | f :: rest, s =>
    match f.properties with
    | none => .error s
    | some p =>
      match classify p.geom_type with
      | .point => (pass1 rest s).map (fun out => (f :: out.1, out.2.1, out.2.2))
      | .line => pass1 rest (renderLine f p s)
      | .poly => (pass1 rest s).map (fun out => (out.1, f :: out.2.1, out.2.2))

/-- Second `forEach`: renders the collected point features in order. -/
def renderPoints : List Feature → MapState → Except MapState MapState
  | [], s => .ok s
  | f :: rest, s =>
    match f.properties with
    | none => .error s
    | some p => renderPoints rest (renderPoint f p s)

/-- Third `forEach`: renders the collected polygon features in order. -/
def renderPolygons : List Feature → MapState → Except MapState MapState
  | [], s => .ok s
  | f :: rest, s =>
    match f.properties with
    | none => .error s
    | some p => renderPolygons rest (renderPolygon f p s)

/-- `loadPOIs()` of the full variant.  The environment supplies the combined
outcome of `fetch('/api/pois')` + `response.json()`: either a failure message
or the parsed collection.  View fitting (`fitBounds`) only moves the camera
and is not part of the observable state here. -/
def loadPOIs (fetchRes : Except String FeatureCollection) (s : MapState) :
    MapState × List Event :=
  match fetchRes with
  | .error msg =>
    ({ s with poiCountText := "Error loading POIs" },
     [.request .getPois, .consoleError ("Error loading POIs: " ++ msg)])
  | .ok geojson =>
    match geojson.features with
    | none =>
      ({ s with poiCountText := "No POIs found in database" }, [.request .getPois])
    | some feats =>
      if feats.length = 0 then
        ({ s with poiCountText := "No POIs found in database" }, [.request .getPois])
      else
        let s₁ := { s with poiCountText := "Total POIs: " ++ toString feats.length }
        match pass1 feats s₁ with
        | .error sErr =>
          ({ sErr with poiCountText := "Error loading POIs" },
           [.request .getPois, .consoleError "Error loading POIs: TypeError"])
        | .ok (pts, pls, s₂) =>
          match renderPoints pts s₂ with
          | .error sErr =>
            ({ sErr with poiCountText := "Error loading POIs" },
             [.request .getPois, .consoleError "Error loading POIs: TypeError"])
          | .ok s₃ =>
            match renderPolygons pls s₃ with
            | .error sErr =>
              ({ sErr with poiCountText := "Error loading POIs" },
               [.request .getPois, .consoleError "Error loading POIs: TypeError"])
            | .ok s₄ =>
              (s₄,
               [.request .getPois,
                .consoleLog ("Loaded " ++ toString pts.length ++ " points, "
                  ++ toString (feats.filter (fun f => featClass f == GeomClass.line)).length
                  ++ " lines, and " ++ toString pls.length ++ " polygons")])

/-- First `forEach` of the simplified `loadPOIs` (map.js): collects point
features and everything-else features; nothing is rendered in this pass. -/
def pass1Simple : List Feature → Except Unit (List Feature × List Feature)
  | [] => .ok ([], [])
  | f :: rest =>
    match f.properties with
    | none => .error ()
    | some p =>
      (pass1Simple rest).map (fun out =>
        match classifySimple p.geom_type with
        | .point => (f :: out.1, out.2)
        | _ => (out.1, f :: out.2))

/-- Point rendering in the simplified variant (no editable overlay). -/
def renderPointSimple (f : Feature) (p : Props) (s : MapState) : MapState :=
  { s with pointLayer := s.pointLayer ++ [mkRendered f "#3388ff" (createPopupContentProps p)] }

/-- Polygon rendering in the simplified variant (no editable overlay). -/
def renderPolygonSimple (f : Feature) (p : Props) (s : MapState) : MapState :=
  let c := getPolygonColor s.colorIndex
  { s with polygonLayer := s.polygonLayer ++ [mkRendered f c.1 (createPopupContentProps p)],
           colorIndex := c.2 }

def renderPointsSimple : List Feature → MapState → Except MapState MapState
  | [], s => .ok s
  | f :: rest, s =>
    match f.properties with
    | none => .error s
    | some p => renderPointsSimple rest (renderPointSimple f p s)

def renderPolygonsSimple : List Feature → MapState → Except MapState MapState
  | [], s => .ok s
  | f :: rest, s =>
    match f.properties with
    | none => .error s
    | some p => renderPolygonsSimple rest (renderPolygonSimple f p s)

/-- `loadPOIs()` of the simplified read-only variant (map.js). -/
def loadPOIsSimple (fetchRes : Except String FeatureCollection) (s : MapState) :
    MapState × List Event :=
  match fetchRes with
  | .error msg =>
    ({ s with poiCountText := "Error loading POIs" },
     [.request .getPois, .consoleError ("Error loading POIs: " ++ msg)])
  | .ok geojson =>
    match geojson.features with
    | none =>
      ({ s with poiCountText := "No POIs found in database" }, [.request .getPois])
    | some feats =>
      if feats.length = 0 then
        ({ s with poiCountText := "No POIs found in database" }, [.request .getPois])
      else
        let s₁ := { s with poiCountText := "Total POIs: " ++ toString feats.length }
        match pass1Simple feats with
        | .error _ =>
          ({ s₁ with poiCountText := "Error loading POIs" },
           [.request .getPois, .consoleError "Error loading POIs: TypeError"])
        | .ok (pts, pls) =>
          match renderPointsSimple pts s₁ with
          | .error sErr =>
            ({ sErr with poiCountText := "Error loading POIs" },
             [.request .getPois, .consoleError "Error loading POIs: TypeError"])
          | .ok s₂ =>
            match renderPolygonsSimple pls s₂ with
            | .error sErr =>
              ({ sErr with poiCountText := "Error loading POIs" },
               [.request .getPois, .consoleError "Error loading POIs: TypeError"])
            | .ok s₃ =>
              (s₃,
               [.request .getPois,
                .consoleLog ("Loaded " ++ toString pts.length ++ " points and "
                  ++ toString pls.length ++ " polygons")])

theorem pass1_spec (feats : List Feature) (s : MapState)
    (h : ∀ f ∈ feats, f.properties.isSome) :
    ∃ s', pass1 feats s
        = .ok (feats.filter (fun f => featClass f == GeomClass.point),
               feats.filter (fun f => featClass f == GeomClass.poly), s') ∧
      s'.pointLayer = s.pointLayer ∧
      s'.polygonLayer = s.polygonLayer ∧
      s'.colorIndex = s.colorIndex ∧
      s'.poiCountText = s.poiCountText ∧
      s'.currentDrawing = s.currentDrawing ∧
      s'.modalOpen = s.modalOpen ∧
      s'.lineLayer.map RenderedLayer.feature
        = s.lineLayer.map RenderedLayer.feature
          ++ (feats.filter (fun f => featClass f == GeomClass.line)).map some := by
  induction feats generalizing s with
  | nil => exact ⟨s, by simp [pass1]⟩
  | cons f rest ih =>
    obtain ⟨p, hp⟩ := Option.isSome_iff_exists.mp (h f (by simp))
    have hrest : ∀ g ∈ rest, g.properties.isSome := fun g hg => h g (by simp [hg])
    have hfc : featClass f = classify p.geom_type := by
      simp [featClass, featGeomType, hp]
    cases hc : classify p.geom_type with
    | point =>
      obtain ⟨s', heq, h1, h2, h3, h4, h5, h6, h7⟩ := ih s hrest
      refine ⟨s', ?_, h1, h2, h3, h4, h5, h6, ?_⟩
      · simp [pass1, hp, hc, heq, List.filter_cons, hfc, Except.map]
      · simp [List.filter_cons, hfc, hc, h7]
    | line =>
      obtain ⟨s', heq, h1, h2, h3, h4, h5, h6, h7⟩ := ih (renderLine f p s) hrest
      refine ⟨s', ?_, ?_, ?_, ?_, ?_, ?_, ?_, ?_⟩
      · simp [pass1, hp, hc, heq, List.filter_cons, hfc]
      · simpa [renderLine] using h1
      · simpa [renderLine] using h2
      · simpa [renderLine] using h3
      · simpa [renderLine] using h4
      · simpa [renderLine] using h5
      · simpa [renderLine] using h6
      · rw [h7]
        simp [renderLine, mkRendered, List.filter_cons, hfc, hc]
    | poly =>
      obtain ⟨s', heq, h1, h2, h3, h4, h5, h6, h7⟩ := ih s hrest
      refine ⟨s', ?_, h1, h2, h3, h4, h5, h6, ?_⟩
      · simp [pass1, hp, hc, heq, List.filter_cons, hfc, Except.map]
      · simp [List.filter_cons, hfc, hc, h7]

theorem renderPoints_spec (pts : List Feature) (s : MapState)
    (h : ∀ f ∈ pts, f.properties.isSome) :
    ∃ s', renderPoints pts s = .ok s' ∧
      s'.pointLayer.map RenderedLayer.feature
        = s.pointLayer.map RenderedLayer.feature ++ pts.map some ∧
      s'.lineLayer = s.lineLayer ∧
      s'.polygonLayer = s.polygonLayer ∧
      s'.colorIndex = s.colorIndex ∧
      s'.poiCountText = s.poiCountText ∧
      s'.currentDrawing = s.currentDrawing ∧
      s'.modalOpen = s.modalOpen := by
  induction pts generalizing s with
  | nil => exact ⟨s, by simp [renderPoints]⟩
  | cons f rest ih =>
    obtain ⟨p, hp⟩ := Option.isSome_iff_exists.mp (h f (by simp))
    have hrest : ∀ g ∈ rest, g.properties.isSome := fun g hg => h g (by simp [hg])
    obtain ⟨s', heq, h1, h2, h3, h4, h5, h6, h7⟩ := ih (renderPoint f p s) hrest
    refine ⟨s', by simp [renderPoints, hp, heq], ?_, ?_, ?_, ?_, ?_, ?_, ?_⟩
    · rw [h1]; simp [renderPoint, mkRendered]
    · simpa [renderPoint] using h2
    · simpa [renderPoint] using h3
    · simpa [renderPoint] using h4
    · simpa [renderPoint] using h5
    · simpa [renderPoint] using h6
    · simpa [renderPoint] using h7

/-- The colors handed out by successive `getPolygonColor()` calls starting
from a given cursor value. -/
def colorCycle (start : Nat) : Nat → List String
  | 0 => []
  | n + 1 => (getPolygonColor start).1 :: colorCycle (start + 1) n

theorem colorCycle_get? (n start i : Nat) (hi : i < n) :
    (colorCycle start n).get? i
      = some (polygonColors.getD ((start + i) % polygonColors.length) "#000000") := by
  induction n generalizing start i with
  | zero => omega
  | succ m ih =>
    cases i with
    | zero => simp [colorCycle, getPolygonColor]
    | succ j =>
      have : start + (j + 1) = start + 1 + j := by omega
      rw [this]
      simpa [colorCycle] using ih (start + 1) j (by omega)

theorem renderPolygons_spec (pls : List Feature) (s : MapState)
    (h : ∀ f ∈ pls, f.properties.isSome) :
    ∃ s', renderPolygons pls s = .ok s' ∧
      s'.polygonLayer.map RenderedLayer.feature
        = s.polygonLayer.map RenderedLayer.feature ++ pls.map some ∧
      s'.polygonLayer.map RenderedLayer.color
        = s.polygonLayer.map RenderedLayer.color ++ colorCycle s.colorIndex pls.length ∧
      s'.colorIndex = s.colorIndex + pls.length ∧
      s'.pointLayer = s.pointLayer ∧
      s'.lineLayer = s.lineLayer ∧
      s'.poiCountText = s.poiCountText ∧
      s'.currentDrawing = s.currentDrawing ∧
      s'.modalOpen = s.modalOpen := by
  induction pls generalizing s with
  | nil => exact ⟨s, by simp [renderPolygons, colorCycle]⟩
  | cons f rest ih =>
    obtain ⟨p, hp⟩ := Option.isSome_iff_exists.mp (h f (by simp))
    have hrest : ∀ g ∈ rest, g.properties.isSome := fun g hg => h g (by simp [hg])
    obtain ⟨s', heq, h1, h2, h3, h4, h5, h6, h7, h8⟩ := ih (renderPolygon f p s) hrest
    refine ⟨s', by simp [renderPolygons, hp, heq], ?_, ?_, ?_, ?_, ?_, ?_, ?_, ?_⟩
    · rw [h1]; simp [renderPolygon, mkRendered]
    · rw [h2]
      show (renderPolygon f p s).polygonLayer.map RenderedLayer.color
          ++ colorCycle (renderPolygon f p s).colorIndex rest.length
        = s.polygonLayer.map RenderedLayer.color
          ++ colorCycle s.colorIndex (rest.length + 1)
      simp [renderPolygon, mkRendered, colorCycle, getPolygonColor]
    · simp only [List.length_cons]
      have : (renderPolygon f p s).colorIndex = s.colorIndex + 1 := rfl
      omega
    · simpa [renderPolygon] using h4
    · simpa [renderPolygon] using h5
    · simpa [renderPolygon] using h6
    · simpa [renderPolygon] using h7
    · simpa [renderPolygon] using h8

theorem classify_point_iff (g : Option String) :
    classify g = GeomClass.point ↔ g = some "ST_Point" := by
  cases g with
  | none => simp [classify]
  | some gt =>
    simp only [classify]
    split_ifs with h1 h2 <;> simp_all

theorem classify_line_iff (g : Option String) :
    classify g = GeomClass.line
      ↔ g = some "ST_LineString" ∨ g = some "ST_MultiLineString" := by
  cases g with
  | none => simp [classify]
  | some gt =>
    simp only [classify]
    split_ifs with h1 h2 <;> simp_all

theorem classifySimple_point_iff (g : Option String) :
    classifySimple g = GeomClass.point ↔ g = some "ST_Point" := by
  cases g with
  | none => simp [classifySimple]
  | some gt =>
    simp only [classifySimple]
    split_ifs with h1 <;> simp_all

theorem classifySimple_ne_line (g : Option String) :
    classifySimple g ≠ GeomClass.line := by
  cases g with
  | none => simp [classifySimple]
  | some gt =>
    simp only [classifySimple]
    split_ifs <;> simp

theorem featClass_partition (feats : List Feature) :
    (feats.filter (fun f => featClass f == GeomClass.point)).length
      + (feats.filter (fun f => featClass f == GeomClass.line)).length
      + (feats.filter (fun f => featClass f == GeomClass.poly)).length
      = feats.length := by
  induction feats with
  | nil => simp
  | cons f rest ih =>
    cases hc : featClass f <;> simp [List.filter_cons, hc] <;> omega

theorem featClassSimple_partition (feats : List Feature) :
    (feats.filter (fun f => featClassSimple f == GeomClass.point)).length
      + (feats.filter (fun f => featClassSimple f == GeomClass.poly)).length
      = feats.length := by
  induction feats with
  | nil => simp
  | cons f rest ih =>
    cases hc : featClassSimple f
    · simp [List.filter_cons, hc]; omega
    · exact absurd hc (classifySimple_ne_line _)
    · simp [List.filter_cons, hc]; omega

theorem loadPOIs_layers (feats : List Feature) (s : MapState)
    (h : ∀ f ∈ feats, f.properties.isSome) :
    ((loadPOIs (.ok ⟨some feats⟩) s).1.pointLayer.map RenderedLayer.feature
      = s.pointLayer.map RenderedLayer.feature
        ++ (feats.filter (fun f => featClass f == GeomClass.point)).map some) ∧
    ((loadPOIs (.ok ⟨some feats⟩) s).1.lineLayer.map RenderedLayer.feature
      = s.lineLayer.map RenderedLayer.feature
        ++ (feats.filter (fun f => featClass f == GeomClass.line)).map some) ∧
    ((loadPOIs (.ok ⟨some feats⟩) s).1.polygonLayer.map RenderedLayer.feature
      = s.polygonLayer.map RenderedLayer.feature
        ++ (feats.filter (fun f => featClass f == GeomClass.poly)).map some) := by
  by_cases hne : feats.length = 0
  · have hnil : feats = [] := List.length_eq_zero.mp hne
    subst hnil
    simp [loadPOIs]
  · obtain ⟨s₂, heq1, p1, p2, p3, p4, p5, p6, p7⟩ :=
      pass1_spec feats { s with poiCountText := "Total POIs: " ++ toString feats.length } h
    have hpts : ∀ f ∈ feats.filter (fun f => featClass f == GeomClass.point),
        f.properties.isSome := fun f hf => h f (List.mem_of_mem_filter hf)
    have hpls : ∀ f ∈ feats.filter (fun f => featClass f == GeomClass.poly),
        f.properties.isSome := fun f hf => h f (List.mem_of_mem_filter hf)
    obtain ⟨s₃, heq2, q1, q2, q3, q4, q5, q6, q7⟩ := renderPoints_spec _ s₂ hpts
    obtain ⟨s₄, heq3, r1, r2, r3, r4, r5, r6, r7, r8⟩ := renderPolygons_spec _ s₃ hpls
    have hload : (loadPOIs (.ok ⟨some feats⟩) s).1 = s₄ := by
      simp [loadPOIs, hne, heq1, heq2, heq3]
    rw [hload]
    refine ⟨?_, ?_, ?_⟩
    · rw [r4, q1, p1]
    · rw [r5, q2, p7]
    · rw [r1, q3, p2]

theorem pass1Simple_spec (feats : List Feature)
    (h : ∀ f ∈ feats, f.properties.isSome) :
    pass1Simple feats
      = .ok (feats.filter (fun f => featClassSimple f == GeomClass.point),
             feats.filter (fun f => featClassSimple f == GeomClass.poly)) := by
  induction feats with
  | nil => simp [pass1Simple]
  | cons f rest ih =>
    obtain ⟨p, hp⟩ := Option.isSome_iff_exists.mp (h f (by simp))
    have hrest : ∀ g ∈ rest, g.properties.isSome := fun g hg => h g (by simp [hg])
    have hfc : featClassSimple f = classifySimple p.geom_type := by
      simp [featClassSimple, featGeomType, hp]
    cases hc : classifySimple p.geom_type with
    | point =>
      simp [pass1Simple, hp, ih hrest, Except.map, hc, List.filter_cons, hfc]
    | line => exact absurd hc (classifySimple_ne_line _)
    | poly =>
      simp [pass1Simple, hp, ih hrest, Except.map, hc, List.filter_cons, hfc]

theorem renderPointsSimple_spec (pts : List Feature) (s : MapState)
    (h : ∀ f ∈ pts, f.properties.isSome) :
    ∃ s', renderPointsSimple pts s = .ok s' ∧
      s'.pointLayer.map RenderedLayer.feature
        = s.pointLayer.map RenderedLayer.feature ++ pts.map some ∧
      s'.lineLayer = s.lineLayer ∧
      s'.polygonLayer = s.polygonLayer ∧
      s'.colorIndex = s.colorIndex ∧
      s'.poiCountText = s.poiCountText := by
  induction pts generalizing s with
  | nil => exact ⟨s, by simp [renderPointsSimple]⟩
  | cons f rest ih =>
    obtain ⟨p, hp⟩ := Option.isSome_iff_exists.mp (h f (by simp))
    have hrest : ∀ g ∈ rest, g.properties.isSome := fun g hg => h g (by simp [hg])
    obtain ⟨s', heq, h1, h2, h3, h4, h5⟩ := ih (renderPointSimple f p s) hrest
    refine ⟨s', by simp [renderPointsSimple, hp, heq], ?_, ?_, ?_, ?_, ?_⟩
    · rw [h1]; simp [renderPointSimple, mkRendered]
    · simpa [renderPointSimple] using h2
    · simpa [renderPointSimple] using h3
    · simpa [renderPointSimple] using h4
    · simpa [renderPointSimple] using h5

theorem renderPolygonsSimple_spec (pls : List Feature) (s : MapState)
    (h : ∀ f ∈ pls, f.properties.isSome) :
    ∃ s', renderPolygonsSimple pls s = .ok s' ∧
      s'.polygonLayer.map RenderedLayer.feature
        = s.polygonLayer.map RenderedLayer.feature ++ pls.map some ∧
      s'.pointLayer = s.pointLayer ∧
      s'.lineLayer = s.lineLayer ∧
      s'.poiCountText = s.poiCountText := by
  induction pls generalizing s with
  | nil => exact ⟨s, by simp [renderPolygonsSimple]⟩
  | cons f rest ih =>
    obtain ⟨p, hp⟩ := Option.isSome_iff_exists.mp (h f (by simp))
    have hrest : ∀ g ∈ rest, g.properties.isSome := fun g hg => h g (by simp [hg])
    obtain ⟨s', heq, h1, h2, h3, h4⟩ := ih (renderPolygonSimple f p s) hrest
    refine ⟨s', by simp [renderPolygonsSimple, hp, heq], ?_, ?_, ?_, ?_⟩
    · rw [h1]; simp [renderPolygonSimple, mkRendered]
    · simpa [renderPolygonSimple] using h2
    · simpa [renderPolygonSimple] using h3
    · simpa [renderPolygonSimple] using h4

theorem loadPOIsSimple_layers (feats : List Feature) (s : MapState)
    (h : ∀ f ∈ feats, f.properties.isSome) :
    ((loadPOIsSimple (.ok ⟨some feats⟩) s).1.pointLayer.map RenderedLayer.feature
      = s.pointLayer.map RenderedLayer.feature
        ++ (feats.filter (fun f => featClassSimple f == GeomClass.point)).map some) ∧
    ((loadPOIsSimple (.ok ⟨some feats⟩) s).1.polygonLayer.map RenderedLayer.feature
      = s.polygonLayer.map RenderedLayer.feature
        ++ (feats.filter (fun f => featClassSimple f == GeomClass.poly)).map some) := by
  by_cases hne : feats.length = 0
  · have hnil : feats = [] := List.length_eq_zero.mp hne
    subst hnil
    simp [loadPOIsSimple]
  · have heq1 := pass1Simple_spec feats h
    have hpts : ∀ f ∈ feats.filter (fun f => featClassSimple f == GeomClass.point),
        f.properties.isSome := fun f hf => h f (List.mem_of_mem_filter hf)
    have hpls : ∀ f ∈ feats.filter (fun f => featClassSimple f == GeomClass.poly),
        f.properties.isSome := fun f hf => h f (List.mem_of_mem_filter hf)
    obtain ⟨s₂, heq2, q1, q2, q3, q4, q5⟩ := renderPointsSimple_spec _
      { s with poiCountText := "Total POIs: " ++ toString feats.length } hpts
    obtain ⟨s₃, heq3, r1, r2, r3, r4⟩ := renderPolygonsSimple_spec _ s₂ hpls
    have hload : (loadPOIsSimple (.ok ⟨some feats⟩) s).1 = s₃ := by
      simp [loadPOIsSimple, hne, heq1, heq2, heq3]
    rw [hload]
    constructor
    · rw [r2, q1]
    · rw [r1, q3]

theorem loadPOIs_snd_cases (env : Except String FeatureCollection) (s : MapState) :
    (loadPOIs env s).2 = [Event.request Request.getPois]
    ∨ (∃ m, (loadPOIs env s).2 = [Event.request Request.getPois, Event.consoleLog m])
    ∨ (∃ m, (loadPOIs env s).2 = [Event.request Request.getPois, Event.consoleError m]) := by
  unfold loadPOIs
  repeat' split
  all_goals dsimp only
  repeat' split
  all_goals
    first
    | (left; rfl)
    | (right; left; exact ⟨_, rfl⟩)
    | (right; right; exact ⟨_, rfl⟩)

theorem loadPOIs_requests (env : Except String FeatureCollection) (s : MapState) :
    requestsOf (loadPOIs env s).2 = [Request.getPois] ∧
    Event.cleared ∉ (loadPOIs env s).2 := by
  rcases loadPOIs_snd_cases env s with h | ⟨m, h⟩ | ⟨m, h⟩ <;>
    rw [h] <;> simp [requestsOf]

/-- C4: every loaded feature is assigned to exactly one of the point, line
and polygon layer groups, by its `geom_type` tag alone: `'ST_Point'` goes to
points, `'ST_LineString'`/`'ST_MultiLineString'` to lines, everything else
to polygons; in the simplified variant only point versus everything-else.
Stated for every feature collection whose features carry a properties
object, over an arbitrary starting state. -/
theorem c4_loader_partitions_by_geom_type (feats : List Feature) (s : MapState)
    (h : ∀ f ∈ feats, f.properties.isSome) :
    ((loadPOIs (.ok ⟨some feats⟩) s).1.pointLayer.map RenderedLayer.feature
      = s.pointLayer.map RenderedLayer.feature
        ++ (feats.filter (fun f => featClass f == GeomClass.point)).map some) ∧
    ((loadPOIs (.ok ⟨some feats⟩) s).1.lineLayer.map RenderedLayer.feature
      = s.lineLayer.map RenderedLayer.feature
        ++ (feats.filter (fun f => featClass f == GeomClass.line)).map some) ∧
    ((loadPOIs (.ok ⟨some feats⟩) s).1.polygonLayer.map RenderedLayer.feature
      = s.polygonLayer.map RenderedLayer.feature
        ++ (feats.filter (fun f => featClass f == GeomClass.poly)).map some) ∧
    (feats.filter (fun f => featClass f == GeomClass.point)).length
      + (feats.filter (fun f => featClass f == GeomClass.line)).length
      + (feats.filter (fun f => featClass f == GeomClass.poly)).length
      = feats.length ∧
    (∀ f ∈ feats, (featClass f = GeomClass.point ↔ featGeomType f = some "ST_Point") ∧
      (featClass f = GeomClass.line ↔ featGeomType f = some "ST_LineString"
        ∨ featGeomType f = some "ST_MultiLineString")) ∧
    ((loadPOIsSimple (.ok ⟨some feats⟩) s).1.pointLayer.map RenderedLayer.feature
      = s.pointLayer.map RenderedLayer.feature
        ++ (feats.filter (fun f => featClassSimple f == GeomClass.point)).map some) ∧
    ((loadPOIsSimple (.ok ⟨some feats⟩) s).1.polygonLayer.map RenderedLayer.feature
      = s.polygonLayer.map RenderedLayer.feature
        ++ (feats.filter (fun f => featClassSimple f == GeomClass.poly)).map some) ∧
    (feats.filter (fun f => featClassSimple f == GeomClass.point)).length
      + (feats.filter (fun f => featClassSimple f == GeomClass.poly)).length
      = feats.length ∧
    (∀ f ∈ feats, featClassSimple f = GeomClass.point ↔ featGeomType f = some "ST_Point") := by
  obtain ⟨a1, a2, a3⟩ := loadPOIs_layers feats s h
  obtain ⟨b1, b2⟩ := loadPOIsSimple_layers feats s h
  refine ⟨a1, a2, a3, featClass_partition feats, ?_, b1, b2,
    featClassSimple_partition feats, ?_⟩
  · intro f _
    exact ⟨classify_point_iff (featGeomType f), classify_line_iff (featGeomType f)⟩
  · intro f _
    exact classifySimple_point_iff (featGeomType f)

/-- Sample mixed-geometry features for the C4 witness. -/
def ptFeature : Feature :=
  { properties := some { bareProps with geom_type := some "ST_Point", id := some 1 },
    geometry := "gp" }

def lnFeature : Feature :=
  { properties := some { bareProps with geom_type := some "ST_LineString", id := some 2 },
    geometry := "gl" }

def pgFeature : Feature :=
  { properties := some { bareProps with geom_type := some "ST_Polygon", id := some 3 },
    geometry := "gg" }

def emptyState : MapState :=
  { pointLayer := [], lineLayer := [], polygonLayer := [], drawnItems := [],
    currentDrawing := none, colorIndex := 0, poiCountText := "", modalOpen := false }

theorem c4_loader_partitions_by_geom_type_witness :
    (loadPOIs (.ok ⟨some [ptFeature, lnFeature, pgFeature]⟩)
        emptyState).1.pointLayer.map RenderedLayer.feature
      = emptyState.pointLayer.map RenderedLayer.feature
        ++ (([ptFeature, lnFeature, pgFeature]).filter
              (fun f => featClass f == GeomClass.point)).map some :=
  (c4_loader_partitions_by_geom_type [ptFeature, lnFeature, pgFeature] emptyState
    (by decide)).1

/-- C5: `clearLayers()` resets the color cursor to zero, and for every
sequence of polygon renders after a clear the i-th polygon (0-indexed)
receives the palette color at index `i mod 10`; the assignment depends only
on the rendered sequence, so a reload after a clear reproduces the same
colors for the same feature order. -/
theorem c5_polygon_color_cycle (s t : MapState) (pls : List Feature)
    (h : ∀ f ∈ pls, f.properties.isSome) :
    (clearLayers s).colorIndex = 0 ∧
    (∃ s', renderPolygons pls (clearLayers s) = .ok s' ∧
      (∀ i, i < pls.length →
        (s'.polygonLayer.map RenderedLayer.color).get? i
          = some (polygonColors.getD (i % polygonColors.length) "#000000")) ∧
      (∀ t', renderPolygons pls (clearLayers t) = .ok t' →
        t'.polygonLayer.map RenderedLayer.color
          = s'.polygonLayer.map RenderedLayer.color)) := by
  refine ⟨rfl, ?_⟩
  obtain ⟨s', heq, _, h2, _⟩ := renderPolygons_spec pls (clearLayers s) h
  refine ⟨s', heq, ?_, ?_⟩
  · intro i hi
    rw [h2]
    have hcl : (clearLayers s).polygonLayer = [] := rfl
    have hci : (clearLayers s).colorIndex = 0 := rfl
    rw [hcl, hci]
    simpa using colorCycle_get? pls.length 0 i hi
  · intro t' ht'
    obtain ⟨t'', heq2, _, g2, _⟩ := renderPolygons_spec pls (clearLayers t) h
    rw [heq2] at ht'
    have htt : t'' = t' := by
      injection ht'
    subst htt
    rw [g2, h2]
    rfl

theorem c5_polygon_color_cycle_witness :
    (clearLayers emptyState).colorIndex = 0 :=
  (c5_polygon_color_cycle emptyState emptyState [pgFeature] (by decide)).1

/-- C6: a fetched collection with no `features` array or an empty one makes
the loader set the count text to exactly "No POIs found in database" and
return with every layer group untouched (in both variants). -/
theorem c6_empty_collection (s : MapState) (fc : FeatureCollection)
    (h : fc.features = none ∨ fc.features = some []) :
    loadPOIs (.ok fc) s
      = ({ s with poiCountText := "No POIs found in database" },
         [.request .getPois]) ∧
    loadPOIsSimple (.ok fc) s
      = ({ s with poiCountText := "No POIs found in database" },
         [.request .getPois]) := by
  rcases h with h | h <;> exact ⟨by simp [loadPOIs, h], by simp [loadPOIsSimple, h]⟩

theorem c6_empty_collection_witness :
    loadPOIs (.ok ⟨none⟩) emptyState
      = ({ emptyState with poiCountText := "No POIs found in database" },
         [.request .getPois]) :=
  (c6_empty_collection emptyState ⟨none⟩ (Or.inl rfl)).1

/-- C7: any network or JSON-parse failure of the POI fetch is caught inside
`loadPOIs`: the loader returns normally (the failure does not propagate),
logs the error to the console, and sets the status text to exactly
"Error loading POIs" (in both variants). -/
theorem c7_fetch_failure_caught (s : MapState) (msg : String) :
    loadPOIs (.error msg) s
      = ({ s with poiCountText := "Error loading POIs" },
         [.request .getPois, .consoleError ("Error loading POIs: " ++ msg)]) ∧
    loadPOIsSimple (.error msg) s
      = ({ s with poiCountText := "Error loading POIs" },
         [.request .getPois, .consoleError ("Error loading POIs: " ++ msg)]) :=
  ⟨rfl, rfl⟩

/-- Model of the builtin `String.prototype.trim()`: strips leading and
trailing whitespace.  The client only compares the result against the empty
string. -/
def jsTrim (s : String) : String :=
  ⟨((s.data.dropWhile Char.isWhitespace).reverse.dropWhile Char.isWhitespace).reverse⟩

/-- Values read from the creation form. -/
structure SubmitForm where
  name : String
  poiType : String
  address : String
  propertiesText : String

/-- Environment of one submission: the result of `JSON.parse` on the
properties text (`none` = throws; the parsed value is kept opaque), the
outcome of the `POST /api/pois` fetch (`.error msg` = network failure,
`.ok status` = HTTP status), and the fetch outcome of the reload that
follows a successful creation. -/
structure SubmitEnv where
  parseResult : Option String
  postResult : Except String Nat
  reloadFetch : Except String FeatureCollection

/-- Tail of the submit handler after the pending-drawing and JSON checks
passed: builds the POI body, posts it, and on a 2xx response closes the
modal, discards the pending shape, clears every layer and reloads. -/
def submitAfterValidation (form : SubmitForm) (env : SubmitEnv) (s : MapState)
    (drawing : RenderedLayer) (properties : Option String) : MapState × List Event :=
  let poi : PoiBody :=
    { name := form.name, poi_type := form.poiType, address := form.address,
      geometry := drawing.geom, properties := properties }
  match env.postResult with
  | .error msg =>
    (s, [.request (.postPois poi), .consoleError ("Error creating POI: " ++ msg),
         .alert ("Failed to create POI: " ++ msg)])
  | .ok status =>
    if 200 ≤ status ∧ status < 300 then
      let s₁ := { closeModal s with currentDrawing := none }
      let s₂ := clearLayers s₁
      let out := loadPOIs env.reloadFetch s₂
      (out.1, [.request (.postPois poi), .consoleLog "POI created:", .cleared]
        ++ out.2 ++ [.alert "POI created successfully!"])
    else
      (s, [.request (.postPois poi),
           .consoleError ("Error creating POI: HTTP error! status: " ++ toString status),
           .alert ("Failed to create POI: HTTP error! status: " ++ toString status)])

/-- The `poi-form` submit handler: aborts with an alert when no geometry is
pending; parses the properties text only when it is non-blank, aborting with
an alert when `JSON.parse` throws; otherwise proceeds to the POST. -/
def submitHandler (form : SubmitForm) (env : SubmitEnv) (s : MapState) :
    MapState × List Event :=
  match s.currentDrawing with
  | none => (s, [.alert "No geometry drawn"])
  | some drawing =>
    if jsTrim form.propertiesText = "" then
      submitAfterValidation form env s drawing none
    else
      match env.parseResult with
      | none => (s, [.alert "Invalid JSON in properties field"])
      | some v => submitAfterValidation form env s drawing (some v)

/-- C2: the submit handler fails fast with an alert and no state change and
no network request when no drawn geometry is pending, and likewise when the
properties text is non-blank but fails to parse as JSON — in the latter case
the state (pending shape in the overlay, open modal) is left untouched. -/
theorem c2_submit_validation (form : SubmitForm) (env : SubmitEnv) (s : MapState) :
    (s.currentDrawing = none →
      submitHandler form env s = (s, [.alert "No geometry drawn"])) ∧
    (∀ d, s.currentDrawing = some d → jsTrim form.propertiesText ≠ "" →
      env.parseResult = none →
      submitHandler form env s = (s, [.alert "Invalid JSON in properties field"])) := by
  constructor
  · intro h
    simp [submitHandler, h]
  · intro d hd hblank hparse
    simp [submitHandler, hd, hblank, hparse]

def sampleForm : SubmitForm :=
  { name := "a", poiType := "b", address := "c", propertiesText := "\x7binvalid" }

def stateWithDrawing : MapState :=
  { emptyState with
      currentDrawing := some { feature := none, geom := "gd", color := "", popup := "" },
      modalOpen := true }

def sampleEnvParseFail : SubmitEnv :=
  { parseResult := none, postResult := .ok 200, reloadFetch := .ok ⟨some []⟩ }

theorem c2_submit_validation_witness :
    submitHandler sampleForm sampleEnvParseFail stateWithDrawing
      = (stateWithDrawing, [.alert "Invalid JSON in properties field"]) :=
  (c2_submit_validation sampleForm sampleEnvParseFail stateWithDrawing).2
    { feature := none, geom := "gd", color := "", popup := "" }
    rfl (by decide) rfl

theorem submitAfterValidation_success (form : SubmitForm) (env : SubmitEnv)
    (s : MapState) (d : RenderedLayer) (props : Option String) (st : Nat)
    (hpost : env.postResult = .ok st) (h2xx : 200 ≤ st ∧ st < 300) :
    submitAfterValidation form env s d props
      = ((loadPOIs env.reloadFetch
            (clearLayers { closeModal s with currentDrawing := none })).1,
         [.request (.postPois
            { name := form.name, poi_type := form.poiType, address := form.address,
              geometry := d.geom, properties := props }),
          .consoleLog "POI created:", .cleared]
          ++ (loadPOIs env.reloadFetch
                (clearLayers { closeModal s with currentDrawing := none })).2
          ++ [.alert "POI created successfully!"]) := by
  simp [submitAfterValidation, hpost, h2xx]

/-- C3: after a creation POST answered with a 2xx status, the handler
performs exactly one full reload cycle: it clears the three layer groups and
the editable overlay, then the reload issues exactly one GET of the POI
collection (and no further clear); in total the run issues exactly the POST
followed by that one GET. -/
theorem c3_create_success_single_reload (form : SubmitForm) (env : SubmitEnv)
    (s : MapState) (d : RenderedLayer) (st : Nat)
    (hd : s.currentDrawing = some d)
    (hparse : jsTrim form.propertiesText = "" ∨ env.parseResult ≠ none)
    (hpost : env.postResult = .ok st) (h2xx : 200 ≤ st ∧ st < 300) :
    ∃ poi preState,
      preState = clearLayers { closeModal s with currentDrawing := none } ∧
      preState.pointLayer = [] ∧ preState.lineLayer = [] ∧
      preState.polygonLayer = [] ∧ preState.drawnItems = [] ∧
      (submitHandler form env s).2
        = [.request (.postPois poi), .consoleLog "POI created:", .cleared]
          ++ (loadPOIs env.reloadFetch preState).2
          ++ [.alert "POI created successfully!"] ∧
      requestsOf (loadPOIs env.reloadFetch preState).2 = [.getPois] ∧
      Event.cleared ∉ (loadPOIs env.reloadFetch preState).2 ∧
      requestsOf (submitHandler form env s).2 = [.postPois poi, .getPois] ∧
      (submitHandler form env s).1 = (loadPOIs env.reloadFetch preState).1 := by
  obtain ⟨hr1, hr2⟩ := loadPOIs_requests env.reloadFetch
    (clearLayers { closeModal s with currentDrawing := none })
  have hsub : ∃ props, submitHandler form env s = submitAfterValidation form env s d props := by
    rcases hparse with hb | hp
    · exact ⟨none, by simp [submitHandler, hd, hb]⟩
    · obtain ⟨v, hv⟩ := Option.ne_none_iff_exists'.mp hp
      by_cases hb : jsTrim form.propertiesText = ""
      · exact ⟨none, by simp [submitHandler, hd, hb]⟩
      · exact ⟨some v, by simp [submitHandler, hd, hb, hv]⟩
  obtain ⟨props, hsub⟩ := hsub
  rw [hsub, submitAfterValidation_success form env s d props st hpost h2xx]
  refine ⟨{ name := form.name, poi_type := form.poiType, address := form.address,
            geometry := d.geom, properties := props },
          clearLayers { closeModal s with currentDrawing := none },
          rfl, rfl, rfl, rfl, rfl, rfl, hr1, hr2, ?_, rfl⟩
  simp [requestsOf, List.filterMap_append] at hr1 ⊢
  rw [hr1]

def blankForm : SubmitForm :=
  { name := "n", poiType := "t", address := "a", propertiesText := "" }

def successEnv : SubmitEnv :=
  { parseResult := none, postResult := .ok 200, reloadFetch := .ok ⟨some []⟩ }

theorem c3_create_success_single_reload_witness :
    ∃ poi preState,
      preState = clearLayers { closeModal stateWithDrawing with currentDrawing := none } ∧
      preState.pointLayer = [] ∧ preState.lineLayer = [] ∧
      preState.polygonLayer = [] ∧ preState.drawnItems = [] ∧
      (submitHandler blankForm successEnv stateWithDrawing).2
        = [.request (.postPois poi), .consoleLog "POI created:", .cleared]
          ++ (loadPOIs successEnv.reloadFetch preState).2
          ++ [.alert "POI created successfully!"] ∧
      requestsOf (loadPOIs successEnv.reloadFetch preState).2 = [.getPois] ∧
      Event.cleared ∉ (loadPOIs successEnv.reloadFetch preState).2 ∧
      requestsOf (submitHandler blankForm successEnv stateWithDrawing).2
        = [.postPois poi, .getPois] ∧
      (submitHandler blankForm successEnv stateWithDrawing).1
        = (loadPOIs successEnv.reloadFetch preState).1 :=
  c3_create_success_single_reload blankForm successEnv stateWithDrawing
    { feature := none, geom := "gd", color := "", popup := "" } 200
    rfl (Or.inl (by decide)) rfl (by decide)

/-- Text of the blocking deletion confirmation dialog. -/
def confirmDeleteMsg : String := "Are you sure you want to delete this POI?"

/-- Environment of one `deletePOI` invocation: the user's answer to the
confirmation dialog, the outcome of the DELETE fetch (`.error msg` = network
failure, `.ok status` = HTTP status), and the fetch outcome of the reload
following a successful deletion. -/
structure DeleteEnv where
  confirmAnswer : Bool
  deleteResult : Except String Nat
  reloadFetch : Except String FeatureCollection

/-- `deletePOI(poiId)`: asks for confirmation first and returns immediately
when declined; otherwise issues one DELETE request, and on a 2xx response
clears all layers and reloads, on failure logs and alerts. -/
def deletePOI (poiId : Nat) (env : DeleteEnv) (s : MapState) : MapState × List Event :=
  if !env.confirmAnswer then (s, [.confirmDialog confirmDeleteMsg])
  else
    match env.deleteResult with
    | .error msg =>
      (s, [.confirmDialog confirmDeleteMsg, .request (.deletePoi poiId),
           .consoleError ("Error deleting POI: " ++ msg),
           .alert ("Failed to delete POI: " ++ msg)])
    | .ok status =>
      if 200 ≤ status ∧ status < 300 then
        let out := loadPOIs env.reloadFetch (clearLayers s)
        (out.1, [.confirmDialog confirmDeleteMsg, .request (.deletePoi poiId),
                 .consoleLog ("POI deleted: " ++ toString poiId), .cleared] ++ out.2)
      else
        (s, [.confirmDialog confirmDeleteMsg, .request (.deletePoi poiId),
             .consoleError ("Error deleting POI: HTTP error! status: " ++ toString status),
             .alert ("Failed to delete POI: HTTP error! status: " ++ toString status)])

/-- The `L.Draw.Event.DELETED` handler over the removed layers, in iteration
order; `envs k` is the environment of the `deletePOI` call made for the k-th
layer.  A layer whose attached feature lacks a properties object makes the
handler throw (`.error`); a layer without attached feature, or whose id is
absent or `0` (falsy), is skipped with no call.  The async `deletePOI` calls
are serialized here; the claims below only count requests per shape, which
interleaving does not affect. -/
def deletedHandlerGo :
    List RenderedLayer → Nat → (Nat → DeleteEnv) → MapState →
      Except MapState (MapState × List Event)
  | [], _, _, s => .ok (s, [])
  | l :: rest, k, envs, s =>
    match l.feature with
    | none => deletedHandlerGo rest (k + 1) envs s
    | some f =>
      match f.properties with
      | none => .error s
      | some p =>
        match p.id with
        | some n =>
          if n ≠ 0 then
            let out := deletePOI n (envs k) s
            (deletedHandlerGo rest (k + 1) envs out.1).map
              (fun r => (r.1, out.2 ++ r.2))
          else deletedHandlerGo rest (k + 1) envs s
        | none => deletedHandlerGo rest (k + 1) envs s

def deletedHandler (layers : List RenderedLayer) (envs : Nat → DeleteEnv)
    (s : MapState) : Except MapState (MapState × List Event) :=
  deletedHandlerGo layers 0 envs s

def isDeleteReq : Request → Bool
  | .deletePoi _ => true
  | _ => false

theorem deletePOI_requests (poiId : Nat) (env : DeleteEnv) (s : MapState)
    (hc : env.confirmAnswer = true) :
    (requestsOf (deletePOI poiId env s).2).filter isDeleteReq
      = [Request.deletePoi poiId] := by
  unfold deletePOI
  rw [hc]
  cases hdr : env.deleteResult with
  | error msg => simp [requestsOf, isDeleteReq]
  | ok status =>
    by_cases h2 : 200 ≤ status ∧ status < 300
    · obtain ⟨hr, _⟩ := loadPOIs_requests env.reloadFetch (clearLayers s)
      simp [h2, requestsOf, List.filterMap_append] at hr ⊢
      rw [hr]
      simp [isDeleteReq]
    · simp [h2, requestsOf, isDeleteReq]

theorem deletePOI_head (poiId : Nat) (env : DeleteEnv) (s : MapState) :
    (deletePOI poiId env s).2.head? = some (.confirmDialog confirmDeleteMsg) := by
  unfold deletePOI
  cases env.confirmAnswer with
  | false => rfl
  | true =>
    cases env.deleteResult with
    | error msg => rfl
    | ok status =>
      by_cases h2 : 200 ≤ status ∧ status < 300 <;> simp [h2]

def propsWithId1 : Props := { bareProps with id := some 1 }

def featWithId1 : Feature := { properties := some propsWithId1, geometry := "g1" }

def shapeWithId1 : RenderedLayer :=
  { feature := some featWithId1, geom := "g1", color := "", popup := "" }

def declineEnvs : Nat → DeleteEnv :=
  fun _ => { confirmAnswer := false, deleteResult := .ok 200, reloadFetch := .ok ⟨some []⟩ }

def acceptEnvs : Nat → DeleteEnv :=
  fun _ => { confirmAnswer := true, deleteResult := .ok 200, reloadFetch := .ok ⟨some []⟩ }

/-- C1 counterexample: a shape whose attached feature carries the backend id
1 is removed via the delete event, but because the user declines the
confirmation dialog the run issues no DELETE request at all — not exactly
one, as the claim states unconditionally. -/
theorem c1_delete_counterexample :
    propsWithId1.id = some 1 ∧
    shapeWithId1.feature = some featWithId1 ∧
    featWithId1.properties = some propsWithId1 ∧
    deletedHandler [shapeWithId1] declineEnvs emptyState
      = .ok (emptyState, [Event.confirmDialog confirmDeleteMsg]) :=
  ⟨rfl, rfl, rfl, rfl⟩

/-- C1 (amended): for a shape removed via the delete event whose feature has
a properties object — if it carries a truthy backend id and the user
confirms the dialog, exactly one DELETE request for that id is issued; if it
carries no id (or the falsy id 0) no backend call is made at all; and if the
user declines the dialog no DELETE request is issued either. -/
theorem c1_delete_request_per_shape (l : RenderedLayer) (f : Feature) (p : Props)
    (envs : Nat → DeleteEnv) (s : MapState)
    (hf : l.feature = some f) (hp : f.properties = some p) :
    (∀ n, p.id = some n → n ≠ 0 → (envs 0).confirmAnswer = true →
      ∃ out, deletedHandler [l] envs s = .ok out ∧
        (requestsOf out.2).filter isDeleteReq = [Request.deletePoi n]) ∧
    ((p.id = none ∨ p.id = some 0) → deletedHandler [l] envs s = .ok (s, [])) ∧
    (∀ n, p.id = some n → n ≠ 0 → (envs 0).confirmAnswer = false →
      ∃ out, deletedHandler [l] envs s = .ok out ∧
        (requestsOf out.2).filter isDeleteReq = []) := by
  refine ⟨?_, ?_, ?_⟩
  · intro n hid hn hc
    refine ⟨((deletePOI n (envs 0) s).1, (deletePOI n (envs 0) s).2 ++ []), ?_, ?_⟩
    · simp [deletedHandler, deletedHandlerGo, hf, hp, hid, hn, Except.map]
    · simp [deletePOI_requests n (envs 0) s hc]
  · intro h
    rcases h with h | h <;> simp [deletedHandler, deletedHandlerGo, hf, hp, h]
  · intro n hid hn hc
    have hdp : deletePOI n (envs 0) s = (s, [.confirmDialog confirmDeleteMsg]) := by
      unfold deletePOI
      rw [hc]
      rfl
    refine ⟨(s, [.confirmDialog confirmDeleteMsg]), ?_, ?_⟩
    · simp [deletedHandler, deletedHandlerGo, hf, hp, hid, hn, hdp, Except.map]
    · simp [requestsOf, isDeleteReq]

theorem c1_delete_request_per_shape_witness :
    ∃ out, deletedHandler [shapeWithId1] acceptEnvs emptyState = .ok out ∧
      (requestsOf out.2).filter isDeleteReq = [Request.deletePoi 1] :=
  (c1_delete_request_per_shape shapeWithId1 featWithId1 propsWithId1 acceptEnvs
    emptyState rfl rfl).1 1 rfl (by decide) rfl

/-- C9: for a shape with a truthy backend id removed via the edit tool, the
run first shows the blocking confirmation dialog (it is the first observable
event); when the user declines, `deletePOI` returns with no DELETE request,
no layer clear and no reload: the state is unchanged and the only event is
the dialog itself. -/
theorem c9_delete_confirmation (l : RenderedLayer) (f : Feature) (p : Props) (n : Nat)
    (envs : Nat → DeleteEnv) (s : MapState)
    (hf : l.feature = some f) (hp : f.properties = some p)
    (hid : p.id = some n) (hn : n ≠ 0) :
    ∃ out, deletedHandler [l] envs s = .ok out ∧
      out.2.head? = some (.confirmDialog confirmDeleteMsg) ∧
      ((envs 0).confirmAnswer = false →
        out = (s, [.confirmDialog confirmDeleteMsg])) := by
  refine ⟨((deletePOI n (envs 0) s).1, (deletePOI n (envs 0) s).2 ++ []), ?_, ?_, ?_⟩
  · simp [deletedHandler, deletedHandlerGo, hf, hp, hid, hn, Except.map]
  · simp [deletePOI_head]
  · intro hc
    have hdp : deletePOI n (envs 0) s = (s, [.confirmDialog confirmDeleteMsg]) := by
      unfold deletePOI
      rw [hc]
      rfl
    simp [hdp]

theorem c9_delete_confirmation_witness :
    ∃ out, deletedHandler [shapeWithId1] declineEnvs emptyState = .ok out ∧
      out.2.head? = some (.confirmDialog confirmDeleteMsg) ∧
      ((declineEnvs 0).confirmAnswer = false →
        out = (emptyState, [.confirmDialog confirmDeleteMsg])) :=
  c9_delete_confirmation shapeWithId1 featWithId1 propsWithId1 1 declineEnvs
    emptyState rfl rfl rfl (by decide)
